import Mathlib

/-!
Shallow embedding of `src/redis/option/client.go` from
GabrielHCataldo/go-rest-template.

Modelling conventions:
* Go `string` is Lean `String`.
* Go `int` and `time.Duration` (an int64 of nanoseconds) are Lean `Int`;
  none of the translated code performs arithmetic on them, so overflow
  does not arise.
* Go `bool` is Lean `Bool`.
* Nil-able opaque references (function values `Dialer`, `OnConnect`,
  `CredentialsProvider`, the pointer `*tls.Config`, and the interface
  value `Limiter`) are modelled as `Option Ref` where `Ref := Nat` is an
  opaque reference identity.  The adapter only copies these references,
  so equality of the `Option Ref` values is exactly Go reference
  equality of the carried values.
-/

/-- Opaque reference identity for function values, pointers and
interface values that the adapter forwards without inspecting. -/
abbrev Ref : Type := Nat

/-- Embedding of the Go struct `option.Client`
(`src/redis/option/client.go`, the configuration to set up a redis
connection), field for field in source order, including the unexported
`readOnly` flag. -/
structure Client where
  Network : String
  Addr : String
  ClientName : String
  Dialer : Option Ref
  OnConnect : Option Ref
  Protocol : Int
  Username : String
  Password : String
  CredentialsProvider : Option Ref
  DB : Int
  MaxRetries : Int
  MinRetryBackoff : Int
  MaxRetryBackoff : Int
  DialTimeout : Int
  ReadTimeout : Int
  WriteTimeout : Int
  ContextTimeoutEnabled : Bool
  PoolFIFO : Bool
  PoolSize : Int
  PoolTimeout : Int
  MinIdleConns : Int
  MaxIdleConns : Int
  MaxActiveConns : Int
  ConnMaxIdleTime : Int
  ConnMaxLifetime : Int
  TLSConfig : Option Ref
  Limiter : Option Ref
  readOnly : Bool
  DisableIndentity : Bool
  deriving DecidableEq, Repr

/-- Embedding of the external `redis.Options` value as populated by the
composite literal inside `Client.ParseToRedisOptions`: exactly the
fields that literal assigns (any further fields of the library type are
zero-initialised by Go and carry no information from the input). -/
structure RedisOptions where
  Network : String
  Addr : String
  ClientName : String
  Dialer : Option Ref
  OnConnect : Option Ref
  Protocol : Int
  Username : String
  Password : String
  CredentialsProvider : Option Ref
  DB : Int
  MaxRetries : Int
  MinRetryBackoff : Int
  MaxRetryBackoff : Int
  DialTimeout : Int
  ReadTimeout : Int
  WriteTimeout : Int
  ContextTimeoutEnabled : Bool
  PoolFIFO : Bool
  PoolSize : Int
  PoolTimeout : Int
  MinIdleConns : Int
  MaxIdleConns : Int
  MaxActiveConns : Int
  ConnMaxIdleTime : Int
  ConnMaxLifetime : Int
  TLSConfig : Option Ref
  Limiter : Option Ref
  DisableIndentity : Bool
  deriving DecidableEq, Repr

/-- Embedding of `func (c Client) ParseToRedisOptions() *redis.Options`
(`src/redis/option/client.go`, lines 129-160), assignment for
assignment in source order.  Note the source feeds `c.MaxIdleConns`
into the output `DB` field and `c.MaxActiveConns` into the output
`MaxIdleConns` field. -/
def Client.ParseToRedisOptions (c : Client) : RedisOptions :=
  { Network := c.Network
    Addr := c.Addr
    ClientName := c.ClientName
    Dialer := c.Dialer
    OnConnect := c.OnConnect
    Protocol := c.Protocol
    Username := c.Username
    Password := c.Password
    CredentialsProvider := c.CredentialsProvider
    DB := c.MaxIdleConns
    MaxRetries := c.MaxRetries
    MinRetryBackoff := c.MinRetryBackoff
    MaxRetryBackoff := c.MaxRetryBackoff
    DialTimeout := c.DialTimeout
    ReadTimeout := c.ReadTimeout
    WriteTimeout := c.WriteTimeout
    ContextTimeoutEnabled := c.ContextTimeoutEnabled
    PoolFIFO := c.PoolFIFO
    PoolSize := c.PoolSize
    PoolTimeout := c.PoolTimeout
    MinIdleConns := c.MinIdleConns
    MaxIdleConns := c.MaxActiveConns
    MaxActiveConns := c.MaxActiveConns
    ConnMaxIdleTime := c.ConnMaxIdleTime
    ConnMaxLifetime := c.ConnMaxLifetime
    TLSConfig := c.TLSConfig
    Limiter := c.Limiter
    DisableIndentity := c.DisableIndentity }

/-- The zero value of the Go struct `option.Client`: every field at its
Go zero value (empty strings, 0 numbers, nil references, false flags). -/
def zeroClient : Client :=
  { Network := ""
    Addr := ""
    ClientName := ""
    Dialer := none
    OnConnect := none
    Protocol := 0
    Username := ""
    Password := ""
    CredentialsProvider := none
    DB := 0
    MaxRetries := 0
    MinRetryBackoff := 0
    MaxRetryBackoff := 0
    DialTimeout := 0
    ReadTimeout := 0
    WriteTimeout := 0
    ContextTimeoutEnabled := false
    PoolFIFO := false
    PoolSize := 0
    PoolTimeout := 0
    MinIdleConns := 0
    MaxIdleConns := 0
    MaxActiveConns := 0
    ConnMaxIdleTime := 0
    ConnMaxLifetime := 0
    TLSConfig := none
    Limiter := none
    readOnly := false
    DisableIndentity := false }

/-- The like-named, field-by-field mapping that the specification's
translation contract describes (`every semantically-named field in
ConnectionConfig must appear, unmodified in value, in the corresponding
field of ClientOptions`).  Written from the spec's words, to be compared
with `Client.ParseToRedisOptions`, which is written from the source. -/
def specLikeNamedTranslate (c : Client) : RedisOptions :=
  { Network := c.Network
    Addr := c.Addr
    ClientName := c.ClientName
    Dialer := c.Dialer
    OnConnect := c.OnConnect
    Protocol := c.Protocol
    Username := c.Username
    Password := c.Password
    CredentialsProvider := c.CredentialsProvider
    DB := c.DB
    MaxRetries := c.MaxRetries
    MinRetryBackoff := c.MinRetryBackoff
    MaxRetryBackoff := c.MaxRetryBackoff
    DialTimeout := c.DialTimeout
    ReadTimeout := c.ReadTimeout
    WriteTimeout := c.WriteTimeout
    ContextTimeoutEnabled := c.ContextTimeoutEnabled
    PoolFIFO := c.PoolFIFO
    PoolSize := c.PoolSize
    PoolTimeout := c.PoolTimeout
    MinIdleConns := c.MinIdleConns
    MaxIdleConns := c.MaxIdleConns
    MaxActiveConns := c.MaxActiveConns
    ConnMaxIdleTime := c.ConnMaxIdleTime
    ConnMaxLifetime := c.ConnMaxLifetime
    TLSConfig := c.TLSConfig
    Limiter := c.Limiter
    DisableIndentity := c.DisableIndentity }

/-- A concrete configuration used to exhibit the cross-mapped fields:
database index 1, at most 2 idle connections, at most 3 active
connections, everything else zero-valued. -/
def crossMapClient : Client :=
  { zeroClient with
    DB := 1
    MaxIdleConns := 2
    MaxActiveConns := 3 }

/-- A concrete configuration whose `Limiter` is the reference 7. -/
def limiterClient : Client :=
  { zeroClient with Limiter := some 7 }

/-- A concrete configuration with a dialer (reference 1) set together
with a network kind and an address. -/
def dialerClient : Client :=
  { zeroClient with
    Dialer := some 1
    Network := "tcp"
    Addr := "localhost:6379" }

/-- The concrete scenario configuration of C8: address
"localhost:6379", 3 retries, a minimum retry backoff of 8 milliseconds
(8000000 nanoseconds), pool size 10, everything else zero-valued. -/
def scenarioClient : Client :=
  { zeroClient with
    Addr := "localhost:6379"
    MaxRetries := 3
    MinRetryBackoff := 8000000
    PoolSize := 10 }

/-- C1: evaluated at `crossMapClient` (DB = 1, MaxIdleConns = 2,
MaxActiveConns = 3, all else zero), `ParseToRedisOptions` puts 2 — the
input idle-connection count — into the output database-index field and
3 — the input active-connection count — into the output
idle-connection-count field, so the output differs from the like-named
field-by-field mapping the claim states: the input `DB` is dropped and
two fields are renamed in meaning. -/
theorem parseToRedisOptions_not_like_named :
    crossMapClient.ParseToRedisOptions.DB = 2 ∧
    crossMapClient.ParseToRedisOptions.MaxIdleConns = 3 ∧
    crossMapClient.DB = 1 ∧
    crossMapClient.ParseToRedisOptions ≠ specLikeNamedTranslate crossMapClient := by
  refine ⟨rfl, rfl, rfl, ?_⟩
  decide

/-- C2: for every configuration `c`, the output database-index field
equals the input idle-connection-count field `c.MaxIdleConns`, and the
output idle-connection-count field equals the input
active-connection-count field `c.MaxActiveConns`. -/
theorem parseToRedisOptions_cross_mapping (c : Client) :
    c.ParseToRedisOptions.DB = c.MaxIdleConns ∧
    c.ParseToRedisOptions.MaxIdleConns = c.MaxActiveConns :=
  ⟨rfl, rfl⟩

/-- C3: the sentinel-encoded fields `DialTimeout`, `ReadTimeout`,
`WriteTimeout`, `MinRetryBackoff`, `MaxRetryBackoff` and `MaxRetries`
survive translation exactly, for every configuration — in particular
for the sentinel values 0, -1 and -2, with no normalization. -/
theorem parseToRedisOptions_preserves_sentinels (c : Client) :
    c.ParseToRedisOptions.DialTimeout = c.DialTimeout ∧
    c.ParseToRedisOptions.ReadTimeout = c.ReadTimeout ∧
    c.ParseToRedisOptions.WriteTimeout = c.WriteTimeout ∧
    c.ParseToRedisOptions.MinRetryBackoff = c.MinRetryBackoff ∧
    c.ParseToRedisOptions.MaxRetryBackoff = c.MaxRetryBackoff ∧
    c.ParseToRedisOptions.MaxRetries = c.MaxRetries :=
  ⟨rfl, rfl, rfl, rfl, rfl, rfl⟩

/-- C4: the translation is total and cannot fail — for every
configuration `c`, including the all-zero `zeroClient`,
`ParseToRedisOptions` is defined and returns a `RedisOptions` value;
there is no error outcome in its type. -/
theorem parseToRedisOptions_total :
    (∀ c : Client, ∃ o : RedisOptions, c.ParseToRedisOptions = o) ∧
    (∃ o : RedisOptions, zeroClient.ParseToRedisOptions = o) :=
  ⟨fun c => ⟨c.ParseToRedisOptions, rfl⟩, ⟨zeroClient.ParseToRedisOptions, rfl⟩⟩

/-- C5: the translation is deterministic and idempotent — two calls on
equal (unchanged) inputs yield equal outputs; the result depends only
on the input value. -/
theorem parseToRedisOptions_deterministic (c₁ c₂ : Client) (h : c₁ = c₂) :
    c₁.ParseToRedisOptions = c₂.ParseToRedisOptions := by
  rw [h]

/-- Witness for C5 at the concrete input `zeroClient`. -/
theorem parseToRedisOptions_deterministic_witness :
    zeroClient.ParseToRedisOptions = zeroClient.ParseToRedisOptions :=
  parseToRedisOptions_deterministic zeroClient zeroClient rfl

/-- C6: for every configuration with a non-nil `Limiter`, the output's
`Limiter` field is the very same reference as the input's `Limiter` —
no copy, no wrapper. -/
theorem parseToRedisOptions_limiter_reference (c : Client)
    (h : c.Limiter ≠ none) :
    c.ParseToRedisOptions.Limiter = c.Limiter :=
  rfl

/-- Witness for C6 at `limiterClient`, whose limiter is reference 7. -/
theorem parseToRedisOptions_limiter_reference_witness :
    limiterClient.Limiter ≠ none ∧
    limiterClient.ParseToRedisOptions.Limiter = limiterClient.Limiter :=
  ⟨by decide, parseToRedisOptions_limiter_reference limiterClient (by decide)⟩

/-- C7: when `Dialer` is set and `Network` and `Addr` are set too, all
three fields are propagated unmodified; the adapter applies no
precedence among them. -/
theorem parseToRedisOptions_dialer_no_precedence (c : Client)
    (hd : c.Dialer ≠ none) (hn : c.Network ≠ "") (ha : c.Addr ≠ "") :
    c.ParseToRedisOptions.Dialer = c.Dialer ∧
    c.ParseToRedisOptions.Network = c.Network ∧
    c.ParseToRedisOptions.Addr = c.Addr :=
  ⟨rfl, rfl, rfl⟩

/-- Witness for C7 at `dialerClient`: dialer reference 1, network
"tcp" and address "localhost:6379" all survive. -/
theorem parseToRedisOptions_dialer_no_precedence_witness :
    dialerClient.Dialer ≠ none ∧
    dialerClient.ParseToRedisOptions.Dialer = dialerClient.Dialer := by
  have h := parseToRedisOptions_dialer_no_precedence dialerClient
    (by decide) (by decide) (by decide)
  exact ⟨by decide, h.1⟩

/-- C8: the adapter injects no defaults — on `scenarioClient` the
output carries exactly the four set fields and every other field at
its zero value (no documented collaborator default appears). -/
theorem parseToRedisOptions_no_defaults :
    scenarioClient.ParseToRedisOptions =
      { Network := ""
        Addr := "localhost:6379"
        ClientName := ""
        Dialer := none
        OnConnect := none
        Protocol := 0
        Username := ""
        Password := ""
        CredentialsProvider := none
        DB := 0
        MaxRetries := 3
        MinRetryBackoff := 8000000
        MaxRetryBackoff := 0
        DialTimeout := 0
        ReadTimeout := 0
        WriteTimeout := 0
        ContextTimeoutEnabled := false
        PoolFIFO := false
        PoolSize := 10
        PoolTimeout := 0
        MinIdleConns := 0
        MaxIdleConns := 0
        MaxActiveConns := 0
        ConnMaxIdleTime := 0
        ConnMaxLifetime := 0
        TLSConfig := none
        Limiter := none
        DisableIndentity := false } := by
  decide

/-- C9: noninterference of unmapped inputs — changing only the `DB`
field and the unexported `readOnly` flag of a configuration leaves the
translation's output unchanged; neither field influences any output
field. -/
theorem parseToRedisOptions_db_readOnly_noninterference
    (c : Client) (d : Int) (r : Bool) :
    ({ c with DB := d, readOnly := r } : Client).ParseToRedisOptions
      = c.ParseToRedisOptions :=
  rfl

/-- C10: output invariant — for every configuration, the output's
idle-connection-count field equals the output's active-connection-count
field, since both are populated from the input's `MaxActiveConns`. -/
theorem parseToRedisOptions_maxIdle_eq_maxActive (c : Client) :
    c.ParseToRedisOptions.MaxIdleConns = c.ParseToRedisOptions.MaxActiveConns :=
  rfl
